import Mathlib

/-!
Verification development for the AssiGen code generator (src/app.py).

The Python program is shallowly embedded: Python strings become Lean
`String`s (which in this toolchain are lists of characters), the string
operations the program uses (`in`, `lower()`, `upper()`, `replace`,
`split`, `strip`, slicing, `title()`, `str.join`, `dict.fromkeys`
deduplication) are modelled by executable Lean functions over character
lists, and each Python function of the program becomes a Lean function
of the same name.  The static template tables `AI_MODELS` and
`FEATURE_HANDLERS` are transcribed verbatim (braces, apostrophes and
backticks inside the template texts are written with `\x7b`, `\x7d`,
`\x27`, `\x60` escapes).
-/

namespace AssiGen

/-- ASCII lower-casing of one character; models what Python `str.lower`
does on the ASCII range (the keyword vocabulary of the program is ASCII). -/
def lowerChar (c : Char) : Char :=
  if 'A' ≤ c ∧ c ≤ 'Z' then Char.ofNat (c.toNat + 32) else c

/-- ASCII upper-casing of one character; models Python `str.upper` on ASCII. -/
def upperChar (c : Char) : Char :=
  if 'a' ≤ c ∧ c ≤ 'z' then Char.ofNat (c.toNat - 32) else c

/-- Models Python `s.lower()` (ASCII range). -/
def pyLower (s : String) : String := String.mk (s.data.map lowerChar)

/-- Models Python `s.upper()` (ASCII range). -/
def pyUpper (s : String) : String := String.mk (s.data.map upperChar)

/-- Does `pat` occur as a contiguous run inside `s`?  Models Python `pat in s`.
(The match keeps the recursion in tail position, so concrete evaluation runs
in constant stack.) -/
def listContainsSub : List Char → List Char → Bool
  | [], pat => pat.isEmpty
  | c :: rest, pat =>
    match pat.isPrefixOf (c :: rest) with
    | true => true
    | false => listContainsSub rest pat

/-- Models the Python substring test `pat in s`. -/
def strContains (s pat : String) : Bool := listContainsSub s.data pat.data

/-- One pass of Python `s.replace(pat, rep)`: replace every non-overlapping
occurrence of `pat`, scanning left to right.  The `fuel` argument only makes
the recursion structural (it is consumed at least as fast as the text, so
starting it at the text length it never runs out); for the empty pattern the
scan leaves the text unchanged (the program never calls `replace` with an
empty pattern). -/
def replaceAux (pat rep : List Char) : Nat → List Char → List Char
  | 0, l => l
  | _ + 1, [] => []
  | fuel + 1, c :: rest =>
    if pat ≠ [] ∧ pat.isPrefixOf (c :: rest) then
      rep ++ replaceAux pat rep fuel (rest.drop (pat.length - 1))
    else
      c :: replaceAux pat rep fuel rest

/-- Models Python `s.replace(pat, rep)`. -/
def pyReplace (s pat rep : String) : String :=
  String.mk (replaceAux pat.data rep.data s.data.length s.data)

/-- Worker for Python `s.split(sep)` with a non-empty separator: `acc` holds
the characters of the current chunk, reversed, and `fuel` (started at the
text length, consumed at least as fast as the text) makes the recursion
structural. -/
def splitAux (sep : List Char) : Nat → List Char → List Char → List (List Char)
  | 0, l, acc => [acc.reverse ++ l]
  | _ + 1, [], acc => [acc.reverse]
  | fuel + 1, c :: rest, acc =>
    if sep ≠ [] ∧ sep.isPrefixOf (c :: rest) then
      acc.reverse :: splitAux sep fuel (rest.drop (sep.length - 1)) []
    else
      splitAux sep fuel rest (c :: acc)

/-- Models Python `s.split(sep)` (the program only splits on `"\n"`). -/
def pySplitOn (s sep : String) : List String :=
  (splitAux sep.data s.data.length s.data []).map String.mk

/-- Models Python `s.strip()` (whitespace stripping at both ends). -/
def pyStrip (s : String) : String :=
  String.mk (((s.data.dropWhile Char.isWhitespace).reverse.dropWhile
    Char.isWhitespace).reverse)

/-- Models the Python slice `s[:n]` (by code points). -/
def pyTake (n : Nat) (s : String) : String := String.mk (s.data.take n)

/-- Worker for `dedupFirst`: `seen` collects the elements already kept. -/
def dedupFirstAux (seen : List String) : List String → List String
  | [] => []
  | a :: rest =>
    if seen.contains a then dedupFirstAux seen rest
    else a :: dedupFirstAux (a :: seen) rest

/-- Models `list(dict.fromkeys(l))`: drop later duplicates, keep the first
occurrence of each element in its original position. -/
def dedupFirst (l : List String) : List String := dedupFirstAux [] l

/-- Worker for `pyTitle`: the flag records whether the previous character
was alphabetic. -/
def titleAux : Bool → List Char → List Char
  | _, [] => []
  | prevAlpha, c :: rest =>
    (if c.isAlpha then (if prevAlpha then lowerChar c else upperChar c) else c)
      :: titleAux c.isAlpha rest

/-- Models Python `s.title()` on ASCII text: each alphabetic character that
follows a non-alphabetic one is upper-cased, the rest are lower-cased. -/
def pyTitle (s : String) : String := String.mk (titleAux false s.data)

/-- Number of positions at which `pat` starts in the character list, on top
of the accumulator `n`; the match keeps the recursion in tail position. -/
def countOccAux (pat : List Char) : Nat → List Char → Nat
  | n, [] => n
  | n, c :: rest =>
    match pat.isPrefixOf (c :: rest) with
    | true => countOccAux pat (n + 1) rest
    | false => countOccAux pat n rest

/-- Number of (possibly overlapping) start positions of the substring `pat`
inside `s`; the patterns counted in the theorems below cannot overlap
themselves. -/
def countOcc (s pat : String) : Nat := countOccAux pat.data 0 s.data

/-! ### Template registry -/

/-- One entry of the static `AI_MODELS` table (src/app.py lines 8-55);
`importLine` transcribes the dict key "import". -/
structure ProviderInfo where
  models : List String
  importLine : String
  setup : String
  call : String
deriving Repr, DecidableEq

/-- One entry of the static `FEATURE_HANDLERS` table (src/app.py lines 57-152). -/
structure FeatureInfo where
  imports : String
  functions : String
deriving Repr, DecidableEq

-- provider openai (AI_MODELS["openai"])
def openai_info : ProviderInfo :=
  { models := ["gpt-3.5-turbo", "gpt-4", "gpt-4o"],
    importLine := "from openai import OpenAI",
    setup := "client = OpenAI(api_key=api_key)",
    call := "response = client.chat.completions.create(\n            model=\"\x7bmodel\x7d\",\n            messages=[\n                \x7b\x7b\"role\": \"system\", \"content\": \"\x7bsystem_prompt\x7d\"\x7d\x7d,\n                \x7b\x7b\"role\": \"user\", \"content\": \"\x7buser_input\x7d\"\x7d\x7d\n            ],\n            temperature=\x7btemperature\x7d\n        )\n        return response.choices[0].message.content" }

-- provider deepseek (AI_MODELS["deepseek"])
def deepseek_info : ProviderInfo :=
  { models := ["deepseek-coder", "deepseek-chat"],
    importLine := "import requests",
    setup := "headers = \x7b\x27Authorization\x27: f\x27Bearer \x7bapi_key\x7d\x27, \x27Content-Type\x27: \x27application/json\x27\x7d",
    call := "response = requests.post(\n            \"https://api.deepseek.com/v1/chat/completions\",\n            headers=headers,\n            json=\x7b\x7b\n                \"model\": \"\x7bmodel\x7d\",\n                \"messages\": [\n                    \x7b\x7b\"role\": \"system\", \"content\": \"\x7bsystem_prompt\x7d\"\x7d\x7d,\n                    \x7b\x7b\"role\": \"user\", \"content\": \"\x7buser_input\x7d\"\x7d\x7d\n                ],\n                \"temperature\": \x7btemperature\x7d\n            \x7d\x7d\n        )\n        return response.json()[\"choices\"][0][\"message\"][\"content\"]" }

-- provider anthropic (AI_MODELS["anthropic"])
def anthropic_info : ProviderInfo :=
  { models := ["claude-3-opus", "claude-3-sonnet", "claude-3-haiku"],
    importLine := "import anthropic",
    setup := "client = anthropic.Anthropic(api_key=api_key)",
    call := "response = client.messages.create(\n            model=\"\x7bmodel\x7d\",\n            system=\"\x7bsystem_prompt\x7d\",\n            messages=[\n                \x7b\x7b\"role\": \"user\", \"content\": \"\x7buser_input\x7d\"\x7d\x7d\n            ],\n            temperature=\x7btemperature\x7d\n        )\n        return response.content[0].text" }

def file_handling_handler : FeatureInfo :=
  { imports := "import os\nimport tempfile\nfrom werkzeug.utils import secure_filename",
    functions := "def save_uploaded_file(file):\n    if file is None:\n        return None\n    temp_dir = tempfile.mkdtemp()\n    filename = secure_filename(file.name)\n    filepath = os.path.join(temp_dir, filename)\n    with open(filepath, \x27wb\x27) as f:\n        f.write(file.read())\n    return filepath\n\ndef read_file_content(filepath, max_size=100000):\n    with open(filepath, \x27r\x27, encoding=\x27utf-8\x27, errors=\x27ignore\x27) as f:\n        content = f.read(max_size)\n    return content" }

def memory_handler : FeatureInfo :=
  { imports := "import sqlite3\nimport json",
    functions := "class ConversationMemory:\n    def __init__(self, db_path=\"memory.db\"):\n        self.db_path = db_path\n        self._init_db()\n        \n    def _init_db(self):\n        conn = sqlite3.connect(self.db_path)\n        cursor = conn.cursor()\n        cursor.execute(\x27\x27\x27\n        CREATE TABLE IF NOT EXISTS conversations (\n            id INTEGER PRIMARY KEY,\n            session_id TEXT,\n            timestamp TEXT,\n            user_input TEXT,\n            assistant_response TEXT\n        )\n        \x27\x27\x27)\n        conn.commit()\n        conn.close()\n        \n    def save_interaction(self, session_id, user_input, assistant_response):\n        conn = sqlite3.connect(self.db_path)\n        cursor = conn.cursor()\n        cursor.execute(\n            \"INSERT INTO conversations (session_id, timestamp, user_input, assistant_response) VALUES (?, datetime(\x27now\x27), ?, ?)\",\n            (session_id, user_input, assistant_response)\n        )\n        conn.commit()\n        conn.close()\n        \n    def get_conversation_history(self, session_id, limit=10):\n        conn = sqlite3.connect(self.db_path)\n        cursor = conn.cursor()\n        cursor.execute(\n            \"SELECT user_input, assistant_response FROM conversations WHERE session_id = ? ORDER BY timestamp DESC LIMIT ?\",\n            (session_id, limit)\n        )\n        history = cursor.fetchall()\n        conn.close()\n        return history" }

def api_integration_handler : FeatureInfo :=
  { imports := "import requests\n    import json",
    functions := "def call_external_api(url, method=\"GET\", headers=None, data=None, params=None):\"\"\"\n    headers = headers or \x7b\x7d\n\n    if method.upper() == \"GET\":\n        response = requests.get(url, headers=headers, params=params)\n    elif method.upper() == \"POST\":\n        response = requests.post(url, headers=headers, json=data if data else None, params=params)\n    elif method.upper() == \"PUT\":\n        response = requests.put(url, headers=headers, json=data if data else None, params=params)\n    elif method.upper() == \"DELETE\":\n        response = requests.delete(url, headers=headers, params=params)\n    else:\n        raise ValueError(f\"Unsupported HTTP method: \x7bmethod\x7d\")\n\n    if response.status_code >= 200 and response.status_code < 300:\n        try:\n            return response.json()\n        except:\n            return response.text\n    else:\n        return \x7b\n            \"error\": True,\n            \"status_code\": response.status_code,\n            \"message\": response.text\n        \x7d" }

def python_web_main_lines : List String := [
  "def create_web_interface():",
  "    assistant = AIAssistant(api_key)",
  "",
  "    def process_query(query, history):",
  "        response = assistant.ask(query)",
  "        history.append((query, response))",
  "        return \"\", history",
  "",
  "    with gr.Blocks() as demo:",
  "        gr.Markdown(f\"## AI Assistant mit \x7bparams[\x27model\x27]\x7d\")",
  "",
  "        chatbot = gr.Chatbot()",
  "        msg = gr.Textbox()",
  "        clear = gr.Button(\"Clear\")",
  "",
  "        msg.submit(process_query, [msg, chatbot], [msg, chatbot])",
  "        clear.click(lambda: None, None, chatbot, queue=False)",
  "",
  "    demo.launch()",
  ""
]

def python_cli_main_lines : List String := [
  "def run_cli():",
  "    assistant = AIAssistant(api_key)",
  "    print(f\"AI Assistant mit \x7bparams[\x27model\x27]\x7d bereit. Zum Beenden \x27exit\x27 eingeben.\")",
  "",
  "    while True:",
  "        user_input = input(\"\\nFrage: \")",
  "        if user_input.lower() in [\x27exit\x27, \x27quit\x27, \x27q\x27]:",
  "            print(\"Auf Wiedersehen!\")",
  "            break",
  "",
  "        response = assistant.ask(user_input)",
  "        print(f\"\\nAssistent: \x7bresponse\x7d\")",
  ""
]

def python_memory_integration_lines : List String := [
  "    def initialize_memory(self, db_path=\"memory.db\"):",
  "        self.memory = ConversationMemory(db_path)",
  "",
  "    def ask_with_memory(self, user_input, session_id, system_prompt=\"You are a helpful AI assistant.\", temperature=0.7):",
  "        response = self.ask(user_input, system_prompt, temperature)",
  "        self.memory.save_interaction(session_id, user_input, response)",
  "        return response"
]

def python_entry_guard_line : String := "if __name__ == \"__main__\":"

def python_entry_both_lines : List String := [
  "    if len(sys.argv) > 1 and sys.argv[1] == \x27--cli\x27:",
  "        run_cli()",
  "    else:",
  "        create_web_interface()"
]

def python_entry_web_lines : List String := ["    create_web_interface()"]

def python_entry_cli_lines : List String := ["    run_cli()"]

def python_entry_neither_lines : List String := [
  "    assistant = AIAssistant(api_key)",
  "    response = assistant.ask(\"Hallo, wie geht es dir?\")",
  "    print(f\"Antwort: \x7bresponse\x7d\")"
]

def python_ask_def_line : String := "    def ask(self, user_input, system_prompt=\"You are a helpful AI assistant.\", temperature=0.7):"

-- php_template placeholder order: api, model, features, api_endpoint, feature_methods, api_key_preview, model, main_code
def php_template_format (api api_endpoint model features feature_methods api_key_preview main_code : String) : String :=
  "<?php\n    // Generierter AI Assistant\n    // API: "
  ++ api
  ++ "\n    // Modell: "
  ++ model
  ++ "\n    // Features: "
  ++ features
  ++ "\n\n    class AIAssistant \x7b\n        private $api_key;\n        private $model;\n\n        public function __construct($api_key, $model) \x7b\n            $this->api_key = $api_key;\n            $this->model = $model;\n        \x7d\n\n        public function ask($prompt, $system_prompt = \"You are a helpful AI assistant.\", $temperature = 0.7) \x7b\n            $url = \"https://api."
  ++ api_endpoint
  ++ "/v1/chat/completions\";\n\n            $headers = [\n                \"Content-Type: application/json\",\n                \"Authorization: Bearer \" . $this->api_key\n            ];\n\n            $data = [\n                \"model\" => $this->model,\n                \"messages\" => [\n                    [\"role\" => \"system\", \"content\" => $system_prompt],\n                    [\"role\" => \"user\", \"content\" => $prompt]\n                ],\n                \"temperature\" => $temperature\n            ];\n\n            $ch = curl_init($url);\n            curl_setopt($ch, CURLOPT_RETURNTRANSFER, true);\n            curl_setopt($ch, CURLOPT_POST, true);\n            curl_setopt($ch, CURLOPT_POSTFIELDS, json_encode($data));\n            curl_setopt($ch, CURLOPT_HTTPHEADER, $headers);\n\n            $response = curl_exec($ch);\n            curl_close($ch);\n\n            $response_data = json_decode($response, true);\n            return $response_data[\"choices\"][0][\"message\"][\"content\"];\n        \x7d\n\n        "
  ++ feature_methods
  ++ "\n    \x7d\n\n    // Hauptcode\n    $api_key = \x27"
  ++ api_key_preview
  ++ "\x27;\n    $assistant = new AIAssistant($api_key, \x27"
  ++ model
  ++ "\x27);\n\n    "
  ++ main_code
  ++ "\n    ?>"

def php_file_handling_methods : String := "\n        public function handleUploadedFile($file) \x7b\n            $tempDir = sys_get_temp_dir();\n            $filename = basename($file[\"name\"]);\n            $filepath = $tempDir . \"/\" . $filename;\n\n            if (move_uploaded_file($file[\"tmp_name\"], $filepath)) \x7b\n                return $filepath;\n            \x7d\n\n            return null;\n        \x7d\n\n        public function readFileContent($filepath, $maxSize = 100000) \x7b\n            if (!file_exists($filepath)) \x7b\n                return null;\n            \x7d\n\n            return file_get_contents($filepath, false, null, 0, $maxSize);\n        \x7d"

def php_memory_methods : String := "\n        private $db;\n\n        public function initializeMemory($dbPath = \"memory.sqlite\") \x7b\n            $this->db = new SQLite3($dbPath);\n            $this->db->exec(\"CREATE TABLE IF NOT EXISTS conversations (\n                id INTEGER PRIMARY KEY AUTOINCREMENT,\n                session_id TEXT,\n                timestamp TEXT,\n                user_input TEXT,\n                assistant_response TEXT\n            )\");\n        \x7d\n\n        public function askWithMemory($prompt, $sessionId, $systemPrompt = \"You are a helpful AI assistant.\", $temperature = 0.7) \x7b\n            $response = $this->ask($prompt, $systemPrompt, $temperature);\n\n            $stmt = $this->db->prepare(\"INSERT INTO conversations (session_id, timestamp, user_input, assistant_response) \n                                        VALUES (:session_id, datetime(\x27now\x27), :user_input, :assistant_response)\");\n            $stmt->bindValue(\x27:session_id\x27, $sessionId, SQLITE3_TEXT);\n            $stmt->bindValue(\x27:user_input\x27, $prompt, SQLITE3_TEXT);\n            $stmt->bindValue(\x27:assistant_response\x27, $response, SQLITE3_TEXT);\n            $stmt->execute();\n\n            return $response;\n        \x7d"

def php_web_main : String := "\n    // Web-UI\n    if ($_SERVER[\"REQUEST_METHOD\"] == \"POST\") \x7b\n        $user_input = $_POST[\"user_input\"] ?? \"\";\n\n        if (!empty($user_input)) \x7b\n            $response = $assistant->ask($user_input);\n            echo json_encode([\"response\" => $response]);\n            exit;\n        \x7d\n    \x7d\n\n    ?>\n    <!DOCTYPE html>\n    <html>\n    <head>\n        <title>AI Assistant</title>\n        <style>\n            body \x7b font-family: Arial, sans-serif; max-width: 800px; margin: 0 auto; padding: 20px; \x7d\n            .chat-container \x7b border: 1px solid #ddd; border-radius: 5px; padding: 10px; height: 400px; overflow-y: auto; margin-bottom: 10px; \x7d\n            .user-message \x7b background-color: #e6f7ff; padding: 8px; border-radius: 5px; margin-bottom: 10px; \x7d\n            .assistant-message \x7b background-color: #f2f2f2; padding: 8px; border-radius: 5px; margin-bottom: 10px; \x7d\n            input[type=\"text\"] \x7b width: 80%; padding: 8px; \x7d\n            button \x7b padding: 8px 15px; background-color: #4CAF50; color: white; border: none; border-radius: 5px; cursor: pointer; \x7d\n        </style>\n    </head>\n    <body>\n        <h1>AI Assistant mit <?php echo htmlspecialchars(\x27\x7bmodel\x7d\x27); ?></h1>\n\n        <div class=\"chat-container\" id=\"chatContainer\"></div>\n\n        <div>\n            <input type=\"text\" id=\"userInput\" placeholder=\"Stellen Sie eine Frage...\">\n            <button onclick=\"sendMessage()\">Senden</button>\n        </div>\n\n        <script>\n            function sendMessage() \x7b\n                const userInput = document.getElementById(\x27userInput\x27).value;\n                if (!userInput) return;\n\n                // Nachricht des Benutzers anzeigen\n                addMessage(\x27user\x27, userInput);\n                document.getElementById(\x27userInput\x27).value = \x27\x27;\n\n                // Anfrage an den Server senden\n                fetch(window.location.href, \x7b\n                    method: \x27POST\x27,\n                    headers: \x7b\n                        \x27Content-Type\x27: \x27application/x-www-form-urlencoded\x27,\n                    \x7d,\n                    body: \x27user_input=\x27 + encodeURIComponent(userInput)\n                \x7d)\n                .then(response => response.json())\n                .then(data => \x7b\n                    addMessage(\x27assistant\x27, data.response);\n                \x7d)\n                .catch(error => \x7b\n                    console.error(\x27Error:\x27, error);\n                    addMessage(\x27assistant\x27, \x27Es ist ein Fehler aufgetreten.\x27);\n                \x7d);\n            \x7d\n\n            function addMessage(role, content) \x7b\n                const chatContainer = document.getElementById(\x27chatContainer\x27);\n                const messageDiv = document.createElement(\x27div\x27);\n                messageDiv.className = role + \x27-message\x27;\n                messageDiv.textContent = content;\n                chatContainer.appendChild(messageDiv);\n                chatContainer.scrollTop = chatContainer.scrollHeight;\n            \x7d\n\n            // Event-Listener für die Enter-Taste\n            document.getElementById(\x27userInput\x27).addEventListener(\x27keypress\x27, function(e) \x7b\n                if (e.key === \x27Enter\x27) \x7b\n                    sendMessage();\n                \x7d\n            \x7d);\n        </script>\n    </body>\n    </html>\n\n    <?php\n    // Verhindere weitere Ausführung\n    exit;"

def php_cli_main : String := "\n    // CLI-Modus\n    echo \"AI Assistant mit \x7bmodel\x7d bereit. Zum Beenden \x27exit\x27 eingeben.\n\";\n\n    while (true) \x7b\n        echo \"\nFrage: \";\n        $userInput = trim(fgets(STDIN));\n\n        if (in_array(strtolower($userInput), [\x27exit\x27, \x27quit\x27, \x27q\x27])) \x7b\n            echo \"Auf Wiedersehen!\n\";\n            break;\n        \x7d\n\n        $response = $assistant->ask($userInput);\n        echo \"\nAssistent: \" . $response . \"\n\";\n    \x7d"

def php_test_main : String := "\n    // Einfacher Test\n    $response = $assistant->ask(\"Hallo, wie geht es dir?\");\n    echo \"Antwort: \" . $response . \"\n\";"

-- js_template placeholder order: api, model, features, imports, model, setup, call_code, feature_methods, memory_class, main_code
def js_template_format (api model features imports setup call_code feature_methods memory_class main_code : String) : String :=
  "// Generierter AI Assistant\n// API: "
  ++ api
  ++ "\n// Modell: "
  ++ model
  ++ "\n// Features: "
  ++ features
  ++ "\n\n"
  ++ imports
  ++ "\n\nclass AIAssistant \x7b\n  constructor(apiKey) \x7b\n    this.apiKey = apiKey;\n    this.model = \""
  ++ model
  ++ "\";\n    "
  ++ setup
  ++ "\n  \x7d\n\n  async ask(userInput, systemPrompt = \"You are a helpful AI assistant.\", temperature = 0.7) \x7b\n    "
  ++ call_code
  ++ "\n  \x7d\n  \n  "
  ++ feature_methods
  ++ "\n\x7d\n\n"
  ++ memory_class
  ++ "\n\n// Hauptcode\n"
  ++ main_code
  ++ "\n"

def js_openai_call : String := "\n    try \x7b\n      const response = await this.client.chat.completions.create(\x7b\n        model: this.model,\n        messages: [\n          \x7b role: \"system\", content: systemPrompt \x7d,\n          \x7b role: \"user\", content: userInput \x7d\n        ],\n        temperature: temperature\n      \x7d);\n      return response.choices[0].message.content;\n    \x7d catch (error) \x7b\n      console.error(\"Error calling OpenAI:\", error);\n      return \"An error occurred while processing your request.\";\n    \x7d"

def js_anthropic_call : String := "\n    try \x7b\n      const response = await this.client.messages.create(\x7b\n        model: this.model,\n        system: systemPrompt,\n        messages: [\n          \x7b role: \"user\", content: userInput \x7d\n        ],\n        temperature: temperature\n      \x7d);\n      return response.content[0].text;\n    \x7d catch (error) \x7b\n      console.error(\"Error calling Anthropic:\", error);\n      return \"An error occurred while processing your request.\";\n    \x7d"

def js_deepseek_call : String := "\n    try \x7b\n      const response = await axios.post(\"https://api.deepseek.com/v1/chat/completions\", \x7b\n        model: this.model,\n        messages: [\n          \x7b role: \"system\", content: systemPrompt \x7d,\n          \x7b role: \"user\", content: userInput \x7d\n        ],\n        temperature: temperature\n      \x7d, \x7b\n        headers: \x7b\n          \"Content-Type\": \"application/json\",\n          \"Authorization\": \x60Bearer $\x7bthis.apiKey\x7d\x60\n        \x7d\n      \x7d);\n      \n      return response.data.choices[0].message.content;\n    \x7d catch (error) \x7b\n      console.error(\"Error calling API:\", error);\n      return \"An error occurred while processing your request.\";\n    \x7d"

def js_file_handling_methods : String := "\n  saveUploadedFile(fileData, filename) \x7b\n    const tempDir = os.tmpdir();\n    const filepath = path.join(tempDir, filename);\n    \n    return new Promise((resolve, reject) => \x7b\n      fs.writeFile(filepath, fileData, (err) => \x7b\n        if (err) \x7b\n          reject(err);\n          return;\n        \x7d\n        resolve(filepath);\n      \x7d);\n    \x7d);\n  \x7d\n  \n  readFileContent(filepath, maxSize = 100000) \x7b\n    return new Promise((resolve, reject) => \x7b\n      fs.readFile(filepath, \x27utf8\x27, (err, data) => \x7b\n        if (err) \x7b\n          reject(err);\n          return;\n        \x7d\n        resolve(data.slice(0, maxSize));\n      \x7d);\n    \x7d);\n  \x7d"

def js_memory_methods : String := "\n  initializeMemory(dbPath = \"memory.db\") \x7b\n    this.memory = new ConversationMemory(dbPath);\n  \x7d\n  \n  async askWithMemory(userInput, sessionId, systemPrompt = \"You are a helpful AI assistant.\", temperature = 0.7) \x7b\n    const response = await this.ask(userInput, systemPrompt, temperature);\n    await this.memory.saveInteraction(sessionId, userInput, response);\n    return response;\n  \x7d"

def js_memory_class_text : String := "\nclass ConversationMemory \x7b\n  constructor(dbPath = \"memory.db\") \x7b\n    this.dbPath = dbPath;\n    this.initDb();\n  \x7d\n  \n  initDb() \x7b\n    this.db = new sqlite3.Database(this.dbPath, (err) => \x7b\n      if (err) \x7b\n        console.error(\"Error opening database:\", err);\n        return;\n      \x7d\n      \n      this.db.run(\x60CREATE TABLE IF NOT EXISTS conversations (\n        id INTEGER PRIMARY KEY AUTOINCREMENT,\n        session_id TEXT,\n        timestamp TEXT DEFAULT CURRENT_TIMESTAMP,\n        user_input TEXT,\n        assistant_response TEXT\n      )\x60);\n    \x7d);\n  \x7d\n  \n  saveInteraction(sessionId, userInput, assistantResponse) \x7b\n    return new Promise((resolve, reject) => \x7b\n      const stmt = this.db.prepare(\n        \x60INSERT INTO conversations (session_id, user_input, assistant_response) \n         VALUES (?, ?, ?)\x60\n      );\n      \n      stmt.run(sessionId, userInput, assistantResponse, function(err) \x7b\n        if (err) \x7b\n          reject(err);\n          return;\n        \x7d\n        resolve(this.lastID);\n      \x7d);\n      \n      stmt.finalize();\n    \x7d);\n  \x7d\n  \n  getConversationHistory(sessionId, limit = 10) \x7b\n  \n\n    return new Promise((resolve, reject) => \x7b\n      this.db.all(\n        \x60SELECT user_input, assistant_response FROM conversations \n         WHERE session_id = ? ORDER BY timestamp DESC LIMIT ?\x60,\n        [sessionId, limit],\n        (err, rows) => \x7b\n          if (err) \x7b\n            reject(err);\n            return;\n          \x7d\n          resolve(rows);\n        \x7d\n      );\n    \x7d);\n  \x7d\n\x7d"

def js_main_code_text : String := "        // Hauptcode für den KI-Assistenten\nconst apiKey = process.env.API_KEY || \"abc...\"; // API-Key über Umgebungsvariable oder Platzhalter\n\nconst assistant = new AIAssistant(apiKey);\n\nif (process.argv.includes(\"--cli\")) \x7b\n  // CLI-Modus\n  runCli();\n\x7d else if (process.argv.includes(\"--web\")) \x7b\n  // Web-UI-Modus\n  createWebInterface();\n\x7d else \x7b\n  // Standard-Modus (einfacher Test)\n  runTest();\n\x7d\n\nasync function runTest() \x7b\n  try \x7b\n    const response = await assistant.ask(\"Hallo, wie geht es dir?\");\n    console.log(\x60Antwort: $\x7bresponse\x7d\x60);\n  \x7d catch (error) \x7b\n    console.error(\"Fehler beim Test:\", error);\n  \x7d\n\x7d\n\nasync function runCli() \x7b\n  const readline = require(\x27readline\x27);\n  const rl = readline.createInterface(\x7b\n    input: process.stdin,\n    output: process.stdout\n  \x7d);\n  \n  console.log(\x60AI Assistant mit $\x7bassistant.model\x7d bereit. Zum Beenden \x27exit\x27 eingeben.\x60);\n  \n  function askQuestion() \x7b\n    rl.question(\"\nFrage: \", async (userInput) => \x7b\n      if ([\"exit\", \"quit\", \"q\"].includes(userInput.toLowerCase())) \x7b\n        console.log(\"Auf Wiedersehen!\");\n        rl.close();\n        return;\n      \x7d\n      \n      try \x7b\n        const response = await assistant.ask(userInput);\n        console.log(\x60\nAssistent: $\x7bresponse\x7d\x60);\n      \x7d catch (error) \x7b\n        console.error(\"Fehler:\", error);\n        console.log(\"\nAssistent: Es ist ein Fehler aufgetreten.\");\n      \x7d\n      \n      askQuestion();\n    \x7d);\n  \x7d\n  \n  askQuestion();\n\x7d\n\nfunction createWebInterface() \x7b\n  const app = express();\n  const port = process.env.PORT || 3000;\n  \n  // Middleware\n  app.use(bodyParser.json());\n  app.use(bodyParser.urlencoded(\x7b extended: true \x7d));\n  app.use(express.static(\x27public\x27));\n  \n  // HTML für die Startseite\n  app.get(\x27/\x27, (req, res) => \x7b\n    res.send(\x60\n      <!DOCTYPE html>\n      <html>\n      <head>\n        <title>AI Assistant</title>\n        <style>\n          body \x7b font-family: Arial, sans-serif; max-width: 800px; margin: 0 auto; padding: 20px; \x7d\n          .chat-container \x7b border: 1px solid #ddd; border-radius: 5px; padding: 10px; height: 400px; overflow-y: auto; margin-bottom: 10px; \x7d\n          .user-message \x7b background-color: #e6f7ff; padding: 8px; border-radius: 5px; margin-bottom: 10px; \x7d\n          .assistant-message \x7b background-color: #f2f2f2; padding: 8px; border-radius: 5px; margin-bottom: 10px; \x7d\n          input[type=\"text\"] \x7b width: 80%; padding: 8px; \x7d\n          button \x7b padding: 8px 15px; background-color: #4CAF50; color: white; border: none; border-radius: 5px; cursor: pointer; \x7d\n        </style>\n      </head>\n      <body>\n        <h1>AI Assistant mit $\x7bassistant.model\x7d</h1>\n        \n        <div class=\"chat-container\" id=\"chatContainer\"></div>\n        \n        <div>\n          <input type=\"text\" id=\"userInput\" placeholder=\"Stellen Sie eine Frage...\">\n          <button onclick=\"sendMessage()\">Senden</button>\n        </div>\n        \n        <script>\n          function sendMessage() \x7b\n            const userInput = document.getElementById(\x27userInput\x27).value;\n            if (!userInput) return;\n            \n            // Nachricht des Benutzers anzeigen\n            addMessage(\x27user\x27, userInput);\n            document.getElementById(\x27userInput\x27).value = \x27\x27;\n            \n            // Anfrage an den Server senden\n            fetch(\x27/ask\x27, \x7b\n              method: \x27POST\x27,\n              headers: \x7b\n                \x27Content-Type\x27: \x27application/json\x27,\n              \x7d,\n              body: JSON.stringify(\x7b user_input: userInput \x7d)\n            \x7d)\n            .then(response => response.json())\n            .then(data => \x7b\n              addMessage(\x27assistant\x27, data.response);\n            \x7d)\n            .catch(error => \x7b\n              console.error(\x27Error:\x27, error);\n              addMessage(\x27assistant\x27, \x27Es ist ein Fehler aufgetreten.\x27);\n            \x7d);\n          \x7d\n          \n          function addMessage(role, content) \x7b\n            const chatContainer = document.getElementById(\x27chatContainer\x27);\n            const messageDiv = document.createElement(\x27div\x27);\n            messageDiv.className = role + \x27-message\x27;\n            messageDiv.textContent = content;\n            chatContainer.appendChild(messageDiv);\n            chatContainer.scrollTop = chatContainer.scrollHeight;\n          \x7d\n          \n          // Event-Listener für die Enter-Taste\n          document.getElementById(\x27userInput\x27).addEventListener(\x27keypress\x27, function(e) \x7b\n            if (e.key === \x27Enter\x27) \x7b\n              sendMessage();\n            \x7d\n          \x7d);\n        </script>\n      </body>\n      </html>\n    \x60);\n  \x7d);\n  \n  // API-Endpunkt für Anfragen\n  app.post(\x27/ask\x27, async (req, res) => \x7b\n    try \x7b\n      const userInput = req.body.user_input;\n      \n      if (!userInput) \x7b\n        return res.status(400).json(\x7b error: \"Keine Eingabe vorhanden\" \x7d);\n      \x7d\n      \n      const response = await assistant.ask(userInput);\n      res.json(\x7b response \x7d);\n    \x7d catch (error) \x7b\n      console.error(\"Fehler bei der Anfrage:\", error);\n      res.status(500).json(\x7b error: \"Interner Serverfehler\" \x7d);\n    \x7d\n  \x7d);\n  \n  // Server starten\n  app.listen(port, () => \x7b\n    console.log(\x60Server läuft auf http://localhost:$\x7bport\x7d\x60);\n  \x7d);\n\x7d"

/-- Subscripting `AI_MODELS[api]`: the dict has exactly the keys "openai",
"deepseek" and "anthropic", and the program only subscripts it with one of
those three (computed by `parse_tasks`); any other key would raise `KeyError`,
which never happens. -/
def AI_MODELS (api : String) : ProviderInfo :=
  if api = "openai" then openai_info
  else if api = "deepseek" then deepseek_info
  else anthropic_info

/-- Membership test plus lookup for `FEATURE_HANDLERS`.  The
"api_integration" entry of the source dict is syntactically malformed
(missing comma and a stray closing quote, src/app.py lines 122-152); its
fragment texts are transcribed as they appear in the file.  No claim depends
on the content of that entry. -/
def FEATURE_HANDLERS (feature : String) : Option FeatureInfo :=
  if feature = "file_handling" then some file_handling_handler
  else if feature = "memory" then some memory_handler
  else if feature = "api_integration" then some api_integration_handler
  else none

/-! ### The intent parser -/

/-- The record returned by `parse_tasks` (src/app.py lines 201-208). -/
structure GenerationParams where
  language : String
  api : String
  model : String
  features : List String
  web_ui : Bool
  cli : Bool
deriving Repr, DecidableEq

/-- The model-selection loop of `parse_tasks` (src/app.py lines 178-186):
the first model of the declared list of the provider whose lower-cased name
occurs in the task text, else the first model of the provider.  All provider
model lists are non-empty and contain no empty name, so `headD ""` realizes
`models[0]` and the Python `if not model` truthiness check coincides with the
`none` case of `find?`. -/
def pickModel (task_input : String) (models : List String) : String :=
  match models.find? (fun m => strContains task_input (pyLower m)) with
  | some m => m
  | none => models.headD ""

/-- Embeds `parse_tasks` (src/app.py lines 154-208).  The input is lower-cased
once; every test is a raw substring test. -/
def parse_tasks (task_input0 : String) : GenerationParams :=
  let task_input := pyLower task_input0
  let language :=
    if strContains task_input "python" then "python"
    else if strContains task_input "php" then "php"
    else if strContains task_input "javascript" || strContains task_input "js" then
      "javascript"
    else "python"
  let api :=
    if strContains task_input "openai" then "openai"
    else if strContains task_input "deepseek" then "deepseek"
    else if strContains task_input "anthropic" || strContains task_input "claude" then
      "anthropic"
    else "openai"
  let model := pickModel task_input (AI_MODELS api).models
  let features :=
    (if ["file", "files", "upload", "datei", "dateien"].any
        (fun x => strContains task_input x) then ["file_handling"] else [])
    ++ (if ["memory", "history", "gedächtnis", "speicher", "verlauf"].any
        (fun x => strContains task_input x) then ["memory"] else [])
    ++ (if ["api", "integration", "external", "extern"].any
        (fun x => strContains task_input x) then ["api_integration"] else [])
  let web_ui := strContains task_input "web" || strContains task_input "ui"
    || strContains task_input "interface"
  let cli := strContains task_input "cli" || strContains task_input "command"
    || strContains task_input "terminal"
  { language := language, api := api, model := model, features := features,
    web_ui := web_ui, cli := cli }

/-! ### The Python composer (`generate_python_code`, src/app.py lines 227-358),
split into one definition per local variable of the source function -/

/-- Import entries the feature loop appends (src/app.py lines 254-256): one
entry per recognized feature, each entry being the whole
(possibly multi-line) import block. -/
def python_feature_imports (features : List String) : List String :=
  features.foldl
    (fun acc feature =>
      match FEATURE_HANDLERS feature with
      | some h => acc ++ [h.imports]
      | none => acc)
    []

/-- The `imports` list of `generate_python_code` after the feature loop and
the web-UI append (src/app.py lines 231-236, 254-256, 278-279), before
deduplication. -/
def python_imports (params : GenerationParams) : List String :=
  (["import os", "import sys", "import json", (AI_MODELS params.api).importLine]
    ++ python_feature_imports params.features)
  ++ (if params.web_ui then ["import gradio as gr"] else [])

/-- The import section of the composed Python output:
`"\\n".join(list(dict.fromkeys(imports)))` (src/app.py line 347). -/
def python_import_section (params : GenerationParams) : String :=
  String.intercalate "\n" (dedupFirst (python_imports params))

/-- The `setup_code` lines (src/app.py lines 238-241): an environment-variable
lookup whose fallback literal embeds only the first three characters of the
credential. -/
def python_setup_code (api_key : String) : List String :=
  ["# API-Setup",
   "api_key = os.environ.get(\x27API_KEY\x27, \x27" ++ pyTake 3 api_key ++ "...\x27)"]

/-- Lines a recognized feature contributes to the assistant class body
(src/app.py lines 254-273): non-memory features are re-indented into the
class, the memory feature instead contributes the two integration methods. -/
def python_feature_class_lines (feature : String) : List String :=
  match FEATURE_HANDLERS feature with
  | none => []
  | some h =>
    ["", "    # " ++ pyTitle (pyReplace feature "_" " ") ++ " Methods"]
    ++ (if feature ≠ "memory" then
          (pySplitOn h.functions "\n").map (fun line => "    " ++ line)
        else python_memory_integration_lines)

/-- The `assistant_class` lines (src/app.py lines 243-273). -/
def python_assistant_class (params : GenerationParams) : List String :=
  (["class AIAssistant:",
    "    def __init__(self, api_key):",
    "        self.api_key = api_key",
    "        " ++ pyReplace (AI_MODELS params.api).setup "api_key" "self.api_key",
    "",
    python_ask_def_line,
    "        " ++ pyReplace (pyReplace (AI_MODELS params.api).call "\x7bmodel\x7d"
      params.model) "\x7btemperature\x7d" "temperature"])
  ++ params.features.foldl (fun acc feature => acc ++ python_feature_class_lines feature) []

/-- The `main_code` lines (src/app.py lines 276-333): optional web interface,
optional read loop, then the `__main__` guard with the four-way entry branch. -/
def python_main_code (params : GenerationParams) : List String :=
  (["# Hauptfunktion"]
    ++ (if params.web_ui then python_web_main_lines else [])
    ++ (if params.cli then python_cli_main_lines else [])
    ++ [python_entry_guard_line])
  ++ (if params.web_ui && params.cli then python_entry_both_lines
      else if params.web_ui then python_entry_web_lines
      else if params.cli then python_entry_cli_lines
      else python_entry_neither_lines)

/-- The `memory_class` lines (src/app.py lines 336-338): the standalone
`ConversationMemory` class, emitted only when the memory feature is present. -/
def python_memory_class (params : GenerationParams) : List String :=
  if params.features.contains "memory" then pySplitOn memory_handler.functions "\n"
  else []

/-- The `all_sections` list joined by `generate_python_code`
(src/app.py lines 341-356). -/
def python_all_sections (params : GenerationParams) (api_key : String) : List String :=
  ["# Generierter AI Assistant",
   "# API: " ++ pyUpper params.api,
   "# Modell: " ++ params.model,
   "# Features: " ++ (if params.features ≠ [] then String.intercalate ", " params.features
     else "Keine zusätzlichen Features"),
   "",
   python_import_section params,
   "",
   String.intercalate "\n" (python_setup_code api_key),
   "",
   (if python_memory_class params ≠ [] then
      String.intercalate "\n" (python_memory_class params)
    else ""),
   "",
   String.intercalate "\n" (python_assistant_class params),
   "",
   String.intercalate "\n" (python_main_code params)]

/-- Embeds `generate_python_code` (src/app.py lines 227-358). -/
def generate_python_code (params : GenerationParams) (api_key : String) : String :=
  String.intercalate "\n" (python_all_sections params api_key)

/-! ### The PHP composer (`generate_php_code`, src/app.py lines 360-597) -/

/-- The `feature_methods` accumulation (src/app.py lines 418-467). -/
def php_feature_methods (features : List String) : String :=
  (if features.contains "file_handling" then php_file_handling_methods else "")
  ++ (if features.contains "memory" then php_memory_methods else "")

/-- The endpoint selection (src/app.py lines 469-476). -/
def php_api_endpoint (api : String) : String :=
  if api = "anthropic" then "anthropic.com"
  else if api = "openai" then "openai.com"
  else "deepseek.com"

/-- The `main_code` selection (src/app.py lines 478-587): with `web_ui` set
the web block is emitted and the cli branch is never consulted. -/
def php_main_code (params : GenerationParams) : String :=
  if params.web_ui then php_web_main
  else if params.cli then php_cli_main
  else php_test_main

/-- Embeds `generate_php_code` (src/app.py lines 360-597): the template is
filled by `str.format`, whose placeholder substitution `php_template_format`
transcribes (arguments src/app.py lines 589-597). -/
def generate_php_code (params : GenerationParams) (api_key : String) : String :=
  php_template_format (pyUpper params.api) (php_api_endpoint params.api) params.model
    (if params.features ≠ [] then String.intercalate ", " params.features
     else "Keine zusätzlichen Features")
    (php_feature_methods params.features)
    (pyTake 3 api_key ++ "...")
    (php_main_code params)

/-! ### The JavaScript composer (`generate_js_code`, src/app.py lines 599-993) -/

/-- The `imports` list (src/app.py lines 630-646 and the memory append at
line 759). -/
def js_imports (params : GenerationParams) : List String :=
  ((if params.api = "openai" then ["const OpenAI = require(\x27openai\x27);"]
    else if params.api = "anthropic" then
      ["const Anthropic = require(\x27@anthropic-ai/sdk\x27);"]
    else ["const axios = require(\x27axios\x27);"])
  ++ (if params.features.contains "file_handling" then
        ["const fs = require(\x27fs\x27);", "const path = require(\x27path\x27);",
         "const os = require(\x27os\x27);"]
      else [])
  ++ (if params.web_ui then
        ["const express = require(\x27express\x27);",
         "const bodyParser = require(\x27body-parser\x27);"]
      else []))
  ++ (if params.features.contains "memory" then
        ["const sqlite3 = require(\x27sqlite3\x27).verbose();"]
      else [])

/-- The `setup` selection (src/app.py lines 649-653). -/
def js_setup (api : String) : String :=
  if api = "openai" then "this.client = new OpenAI(\x7b apiKey: this.apiKey \x7d);"
  else if api = "anthropic" then
    "this.client = new Anthropic(\x7b apiKey: this.apiKey \x7d);"
  else ""

/-- The `call_code` selection (src/app.py lines 656-710). -/
def js_call_code (api : String) : String :=
  if api = "openai" then js_openai_call
  else if api = "anthropic" then js_anthropic_call
  else js_deepseek_call

/-- The `feature_methods` accumulation (src/app.py lines 713-754). -/
def js_feature_methods (features : List String) : String :=
  (if features.contains "file_handling" then js_file_handling_methods else "")
  ++ (if features.contains "memory" then js_memory_methods else "")

/-- The `memory_class` selection (src/app.py lines 757-822). -/
def js_memory_class (features : List String) : String :=
  if features.contains "memory" then js_memory_class_text else ""

/-- Modelled from the source text of `generate_js_code` (src/app.py lines
599-993): from line 822 the source is syntactically malformed (a string
literal concatenated directly with a statement), so the function as written
never assembles `js_template`; this definition fills the template
placeholders with the pieces computed by the well-formed prefix (lines
629-821) and with the trailing main-code text (lines 832-993), transcribed
verbatim in `js_main_code_text`.  The credential is not interpolated anywhere
in the JavaScript output (the main code hardcodes the placeholder "abc...",
line 833). -/
def generate_js_code (params : GenerationParams) (_api_key : String) : String :=
  js_template_format (pyUpper params.api) params.model
    (if params.features ≠ [] then String.intercalate ", " params.features
     else "Keine zusätzlichen Features")
    (String.intercalate "\n" (js_imports params))
    (js_setup params.api) (js_call_code params.api)
    (js_feature_methods params.features)
    (js_memory_class params.features)
    js_main_code_text

/-! ### The top-level entry (`generate_code`, src/app.py lines 210-225) -/

/-- Embeds `generate_code`: the only refusal guard checks the credential
(`not api_key.strip()`), not the task text. -/
def generate_code (task_input api_key : String) : String :=
  if pyStrip api_key = "" then "Bitte geben Sie einen gültigen API-Key ein."
  else
    let params := parse_tasks task_input
    if params.language = "python" then generate_python_code params api_key
    else if params.language = "php" then generate_php_code params api_key
    else if params.language = "javascript" then generate_js_code params api_key
    else "Die Programmiersprache " ++ params.language
      ++ " wird noch nicht unterstützt."

/-! ### Structural model of the emitted entry-point dispatch -/

/-- The action a generated entry point can take at run time. -/
inductive MainAction
  | webInterface
  | cliLoop
  | smokeTest
deriving Repr, DecidableEq

/-- Shape of the runtime dispatch of a generated entry point: flag clauses
tested in order, then the branch taken when no flag is given. -/
structure EntryDispatch where
  flagClauses : List (String × MainAction)
  defaultAction : MainAction
deriving Repr, DecidableEq

/-- Runtime dispatch of the generated Python entry point when both webUI and
cli are requested, transcribed from src/app.py lines 321-325: `--cli` selects
the read loop and the else branch starts the web interface. -/
def python_entry_dispatch : EntryDispatch :=
  { flagClauses := [("--cli", MainAction.cliLoop)],
    defaultAction := MainAction.webInterface }

/-- Runtime dispatch of the generated JavaScript entry point, transcribed
from the main-code text src/app.py lines 837-846: `--cli` selects the read
loop, `--web` the web interface, and the unflagged else branch runs the
smoke test `runTest()`. -/
def js_entry_dispatch : EntryDispatch :=
  { flagClauses := [("--cli", MainAction.cliLoop), ("--web", MainAction.webInterface)],
    defaultAction := MainAction.smokeTest }

/-- The PHP composer emits no runtime dispatch at all: with `web_ui` set the
web block is emitted unconditionally and the cli branch is unreachable
(src/app.py lines 480-566). -/
def php_entry_dispatch : EntryDispatch :=
  { flagClauses := [], defaultAction := MainAction.webInterface }



/-- The four header-comment lines of the Python output joined into one block
(src/app.py lines 342-345). -/
def python_header (params : GenerationParams) : String :=
  String.intercalate "\n"
    ["# Generierter AI Assistant",
     "# API: " ++ pyUpper params.api,
     "# Modell: " ++ params.model,
     "# Features: " ++ (if params.features ≠ [] then String.intercalate ", " params.features
       else "Keine zusätzlichen Features")]

/-- Follows the words of the spec (section 4.3 step 5 and section 8,
Deduplication/Join): header comment, imports, setup, auxiliary type only if
the memory feature is present, assistant body, entry point — to be joined
with exactly one blank line between adjacent sections.  This definition is
written from the claim, not from the source, and is compared against the
composer in the theorems below. -/
def python_sections_spec (params : GenerationParams) (api_key : String) : List String :=
  ([python_header params,
    python_import_section params,
    String.intercalate "\n" (python_setup_code api_key)]
  ++ (if python_memory_class params ≠ [] then
        [String.intercalate "\n" (python_memory_class params)]
      else [])
  ++ [String.intercalate "\n" (python_assistant_class params),
      String.intercalate "\n" (python_main_code params)])

/-! ### Lemmas -/

/-! ### Generic lemmas about the string primitives -/

theorem listContainsSub_cons (c : Char) (rest pat : List Char) :
    listContainsSub (c :: rest) pat
      = (pat.isPrefixOf (c :: rest) || listContainsSub rest pat) := by
  rw [listContainsSub]
  cases pat.isPrefixOf (c :: rest) <;> simp

theorem listContainsSub_iff (s pat : List Char) :
    listContainsSub s pat = true ↔ ∃ l1 l2, s = l1 ++ (pat ++ l2) := by
  induction s with
  | nil =>
    simp only [listContainsSub, List.isEmpty_iff]
    constructor
    · rintro rfl; exact ⟨[], [], rfl⟩
    · rintro ⟨l1, l2, h⟩
      rcases List.append_eq_nil.mp h.symm with ⟨rfl, h2⟩
      rcases List.append_eq_nil.mp h2 with ⟨rfl, rfl⟩
      rfl
  | cons c rest ih =>
    simp only [listContainsSub_cons, Bool.or_eq_true, List.isPrefixOf_iff_prefix, ih]
    constructor
    · rintro (⟨t, ht⟩ | ⟨l1, l2, rfl⟩)
      · exact ⟨[], t, by simpa using ht.symm⟩
      · exact ⟨c :: l1, l2, rfl⟩
    · rintro ⟨l1, l2, h⟩
      cases l1 with
      | nil => exact Or.inl ⟨l2, by simpa using h.symm⟩
      | cons a l1 =>
        rw [List.cons_append] at h
        injection h with h1 h2
        exact Or.inr ⟨l1, l2, h2⟩

theorem strContains_trans {s a b : String}
    (h1 : strContains s a = true) (h2 : strContains a b = true) :
    strContains s b = true := by
  unfold strContains at *
  rw [listContainsSub_iff] at *
  obtain ⟨l1, l2, hl⟩ := h1
  obtain ⟨m1, m2, hm⟩ := h2
  exact ⟨l1 ++ m1, m2 ++ l2, by rw [hl, hm]; simp⟩

theorem dedupFirstAux_sublist (seen l : List String) :
    (dedupFirstAux seen l).Sublist l := by
  induction l generalizing seen with
  | nil => simp [dedupFirstAux]
  | cons a rest ih =>
    rw [dedupFirstAux]
    split
    · exact (ih seen).cons a
    · exact (ih (a :: seen)).cons₂ a

theorem dedupFirst_sublist (l : List String) : (dedupFirst l).Sublist l :=
  dedupFirstAux_sublist [] l

theorem mem_dedupFirstAux (seen l : List String) (x : String) :
    x ∈ dedupFirstAux seen l ↔ x ∈ l ∧ x ∉ seen := by
  induction l generalizing seen with
  | nil => simp [dedupFirstAux]
  | cons a rest ih =>
    rw [dedupFirstAux]
    split
    · rename_i hseen
      rw [ih]
      simp only [List.mem_cons]
      constructor
      · rintro ⟨h1, h2⟩; exact ⟨Or.inr h1, h2⟩
      · rintro ⟨h1 | h1, h2⟩
        · exact absurd (h1 ▸ List.elem_iff.mp hseen) h2
        · exact ⟨h1, h2⟩
    · rename_i hseen
      simp only [List.mem_cons, ih, List.mem_cons, not_or]
      constructor
      · rintro (rfl | ⟨h1, h2, h3⟩)
        · exact ⟨Or.inl rfl, fun hx => hseen (List.elem_iff.mpr hx)⟩
        · exact ⟨Or.inr h1, h3⟩
      · rintro ⟨rfl | h1, h2⟩
        · exact Or.inl rfl
        · by_cases hxa : x = a
          · exact Or.inl hxa
          · exact Or.inr ⟨h1, hxa, h2⟩

theorem mem_dedupFirst (l : List String) (x : String) :
    x ∈ dedupFirst l ↔ x ∈ l := by
  rw [dedupFirst, mem_dedupFirstAux]
  simp

theorem dedupFirstAux_nodup (seen l : List String) :
    (dedupFirstAux seen l).Nodup := by
  induction l generalizing seen with
  | nil => simp [dedupFirstAux]
  | cons a rest ih =>
    rw [dedupFirstAux]
    split
    · exact ih seen
    · refine List.nodup_cons.mpr ⟨?_, ih (a :: seen)⟩
      intro hmem
      exact ((mem_dedupFirstAux _ _ _).mp hmem).2 (List.mem_cons_self a seen)

theorem dedupFirst_nodup (l : List String) : (dedupFirst l).Nodup :=
  dedupFirstAux_nodup [] l


/-! ### Counting occurrences across the blank-line joins -/

theorem countOccAux_acc (pat : List Char) (n : Nat) (l : List Char) :
    countOccAux pat n l = n + countOccAux pat 0 l := by
  induction l generalizing n with
  | nil => simp [countOccAux]
  | cons c rest ih =>
    cases h : pat.isPrefixOf (c :: rest) <;> simp only [countOccAux, h]
    · exact ih n
    · rw [ih (n + 1), ih 1]
      omega

theorem isPrefixOf_append_newline {pat : List Char} (hnl : '\n' ∉ pat)
    (z w : List Char) :
    pat.isPrefixOf (z ++ '\n' :: w) = pat.isPrefixOf z := by
  induction pat generalizing z with
  | nil => simp [List.isPrefixOf]
  | cons p pr ih =>
    have hp : p ≠ '\n' := fun h => hnl (h ▸ List.mem_cons_self _ _)
    cases z with
    | nil =>
      simp only [List.nil_append, List.isPrefixOf]
      simp [hp]
    | cons c z' =>
      simp only [List.cons_append, List.isPrefixOf, List.append_eq]
      rw [ih (fun hm => hnl (List.mem_cons_of_mem _ hm))]

theorem countOccAux_append_newline {pat : List Char} (hne : pat ≠ [])
    (hnl : '\n' ∉ pat) (x : List Char) (n : Nat) (w : List Char) :
    countOccAux pat n (x ++ '\n' :: w) = countOccAux pat (countOccAux pat n x) w := by
  induction x generalizing n with
  | nil =>
    have hp : pat.isPrefixOf ('\n' :: w) = false := by
      cases pat with
      | nil => exact absurd rfl hne
      | cons p pr =>
        have hp0 : p ≠ '\n' := fun h => hnl (h ▸ List.mem_cons_self _ _)
        simp [List.isPrefixOf, hp0]
    simp [countOccAux, hp]
  | cons c x' ih =>
    have hpre : pat.isPrefixOf ((c :: x') ++ '\n' :: w) = pat.isPrefixOf (c :: x') :=
      isPrefixOf_append_newline hnl (c :: x') w
    rw [List.cons_append] at hpre ⊢
    cases h : pat.isPrefixOf (c :: x') <;>
      simp only [countOccAux, hpre, h, ih]

theorem countOcc_append_sep (x y pat : String) (hne : pat.data ≠ [])
    (hnl : '\n' ∉ pat.data) :
    countOcc (x ++ ("\n\n" ++ y)) pat = countOcc x pat + countOcc y pat := by
  have hdata : (x ++ ("\n\n" ++ y)).data = x.data ++ '\n' :: '\n' :: y.data := rfl
  unfold countOcc
  rw [hdata, countOccAux_append_newline hne hnl,
    show ('\n' :: y.data) = ([] ++ '\n' :: y.data) from rfl,
    countOccAux_append_newline hne hnl, countOccAux_acc]
  rfl

theorem intercalate_sep6 (a b c d e f : String) :
    String.intercalate "\n\n" [a, b, c, d, e, f]
      = a ++ ("\n\n" ++ (b ++ ("\n\n" ++ (c ++ ("\n\n"
          ++ (d ++ ("\n\n" ++ (e ++ ("\n\n" ++ f))))))))) := by
  simp only [String.intercalate, String.intercalate.go]
  apply congrArg String.mk
  simp [String.append_assoc]

theorem countOcc_join6 (a b c d e f pat : String) (hne : pat.data ≠ [])
    (hnl : '\n' ∉ pat.data) :
    countOcc (String.intercalate "\n\n" [a, b, c, d, e, f]) pat
      = countOcc a pat + (countOcc b pat + (countOcc c pat
          + (countOcc d pat + (countOcc e pat + countOcc f pat)))) := by
  rw [intercalate_sep6, countOcc_append_sep _ _ _ hne hnl,
    countOcc_append_sep _ _ _ hne hnl, countOcc_append_sep _ _ _ hne hnl,
    countOcc_append_sep _ _ _ hne hnl, countOcc_append_sep _ _ _ hne hnl]

/-! ### The Python composer as six sections joined by blank lines -/

theorem python_sections_join (params : GenerationParams) (api_key : String) :
    generate_python_code params api_key
      = String.intercalate "\n\n"
          [python_header params,
           python_import_section params,
           String.intercalate "\n" (python_setup_code api_key),
           (if python_memory_class params ≠ [] then
              String.intercalate "\n" (python_memory_class params)
            else ""),
           String.intercalate "\n" (python_assistant_class params),
           String.intercalate "\n" (python_main_code params)] := by
  simp only [generate_python_code, python_all_sections, python_header,
    String.intercalate, String.intercalate.go]
  apply congrArg String.mk
  simp [String.append_assoc]

/-! ### Projections of the parser and the model-selection loop -/

theorem parse_tasks_language (s : String) :
    (parse_tasks s).language
      = (if strContains (pyLower s) "python" then "python"
         else if strContains (pyLower s) "php" then "php"
         else if strContains (pyLower s) "javascript" || strContains (pyLower s) "js" then
           "javascript"
         else "python") := rfl

theorem parse_tasks_api (s : String) :
    (parse_tasks s).api
      = (if strContains (pyLower s) "openai" then "openai"
         else if strContains (pyLower s) "deepseek" then "deepseek"
         else if strContains (pyLower s) "anthropic" || strContains (pyLower s) "claude" then
           "anthropic"
         else "openai") := rfl

theorem parse_tasks_model (s : String) :
    (parse_tasks s).model = pickModel (pyLower s) (AI_MODELS (parse_tasks s).api).models := rfl

theorem parse_tasks_web_ui (s : String) :
    (parse_tasks s).web_ui
      = (strContains (pyLower s) "web" || strContains (pyLower s) "ui"
          || strContains (pyLower s) "interface") := rfl

theorem parse_tasks_cli (s : String) :
    (parse_tasks s).cli
      = (strContains (pyLower s) "cli" || strContains (pyLower s) "command"
          || strContains (pyLower s) "terminal") := rfl

theorem AI_MODELS_models_ne_nil (api : String) : (AI_MODELS api).models ≠ [] := by
  unfold AI_MODELS
  split
  · decide
  split
  · decide
  · decide

theorem pickModel_mem (t : String) (ms : List String) (h : ms ≠ []) :
    pickModel t ms ∈ ms := by
  unfold pickModel
  cases hf : ms.find? (fun m => strContains t (pyLower m)) with
  | some m => exact List.mem_of_find?_eq_some hf
  | none =>
    cases ms with
    | nil => exact absurd rfl h
    | cons a l => simp

theorem pickModel_spec (t : String) (ms : List String) :
    (∃ as bs, ms = as ++ pickModel t ms :: bs
        ∧ strContains t (pyLower (pickModel t ms)) = true
        ∧ ∀ a ∈ as, strContains t (pyLower a) = false)
    ∨ ((∀ m ∈ ms, strContains t (pyLower m) = false)
        ∧ pickModel t ms = ms.headD "") := by
  unfold pickModel
  cases hf : ms.find? (fun m => strContains t (pyLower m)) with
  | some m =>
    left
    obtain ⟨hp, as, bs, hms, hall⟩ := List.find?_eq_some.mp hf
    refine ⟨as, bs, hms, by simpa using hp, fun a ha => by simpa using hall a ha⟩
  | none =>
    right
    refine ⟨fun m hm => ?_, rfl⟩
    have := List.find?_eq_none.mp hf m hm
    simpa using this

/-! ### The composers depend on the credential only through its preview -/

theorem generate_python_code_key (p : GenerationParams) {k1 k2 : String}
    (h : pyTake 3 k1 = pyTake 3 k2) :
    generate_python_code p k1 = generate_python_code p k2 := by
  unfold generate_python_code python_all_sections python_setup_code
  rw [h]

theorem generate_php_code_key (p : GenerationParams) {k1 k2 : String}
    (h : pyTake 3 k1 = pyTake 3 k2) :
    generate_php_code p k1 = generate_php_code p k2 := by
  unfold generate_php_code
  rw [h]

/-! ### Claim theorems -/

/-- C3: `parse_tasks` is a total function: for every input string (the Lean
function is total by construction, so it returns on every input, including
the empty string and text without keywords) the resolved language is one of
python, php, javascript, the API is one of openai, deepseek, anthropic, and
the model is drawn from the resolved provider entry of `AI_MODELS`. -/
theorem parse_tasks_total (s : String) :
    (parse_tasks s).language ∈ (["python", "php", "javascript"] : List String)
    ∧ (parse_tasks s).api ∈ (["openai", "deepseek", "anthropic"] : List String)
    ∧ (parse_tasks s).model ∈ (AI_MODELS (parse_tasks s).api).models := by
  refine ⟨?_, ?_, ?_⟩
  · rw [parse_tasks_language]
    split
    · simp
    split
    · simp
    split
    · simp
    · simp
  · rw [parse_tasks_api]
    split
    · simp
    split
    · simp
    split
    · simp
    · simp
  · rw [parse_tasks_model]
    exact pickModel_mem _ _ (AI_MODELS_models_ne_nil _)

/-- C6: once the provider is resolved, the selected model is the first model
of the provider model list (in declared order) whose lower-cased name occurs
in the lower-cased task text; if none occurs, the first (default) model is
selected — and the model is always a member of the provider list. -/
theorem parse_tasks_model_first_match (s : String) :
    (parse_tasks s).model ∈ (AI_MODELS (parse_tasks s).api).models
    ∧ ((∃ as bs, (AI_MODELS (parse_tasks s).api).models
          = as ++ (parse_tasks s).model :: bs
        ∧ strContains (pyLower s) (pyLower (parse_tasks s).model) = true
        ∧ ∀ a ∈ as, strContains (pyLower s) (pyLower a) = false)
      ∨ ((∀ m ∈ (AI_MODELS (parse_tasks s).api).models,
            strContains (pyLower s) (pyLower m) = false)
        ∧ (parse_tasks s).model = ((AI_MODELS (parse_tasks s).api).models).headD "")) := by
  constructor
  · rw [parse_tasks_model]
    exact pickModel_mem _ _ (AI_MODELS_models_ne_nil _)
  · rw [parse_tasks_model]
    exact pickModel_spec (pyLower s) _

/-- C7: provider resolution is a fixed priority chain: openai is tested
first, then deepseek, then anthropic (keywords "anthropic" or "claude"),
with openai as the fallback; in particular a text mentioning two providers
resolves to the earlier one in this order.  `parse_tasks` is a function, so
the same text always resolves to the same provider. -/
theorem parse_tasks_provider_priority (s : String) :
    (strContains (pyLower s) "openai" = true → (parse_tasks s).api = "openai")
    ∧ (strContains (pyLower s) "openai" = false →
        strContains (pyLower s) "deepseek" = true → (parse_tasks s).api = "deepseek")
    ∧ (strContains (pyLower s) "openai" = false →
        strContains (pyLower s) "deepseek" = false →
        (strContains (pyLower s) "anthropic" = true ∨ strContains (pyLower s) "claude" = true) →
        (parse_tasks s).api = "anthropic")
    ∧ (strContains (pyLower s) "openai" = false →
        strContains (pyLower s) "deepseek" = false →
        strContains (pyLower s) "anthropic" = false →
        strContains (pyLower s) "claude" = false →
        (parse_tasks s).api = "openai") := by
  refine ⟨fun h1 => ?_, fun h1 h2 => ?_, fun h1 h2 h3 => ?_, fun h1 h2 h3 h4 => ?_⟩
  · rw [parse_tasks_api, if_pos h1]
  · rw [parse_tasks_api, h1, h2]
    rfl
  · rw [parse_tasks_api, h1, h2]
    rcases h3 with h3 | h3 <;> rw [h3] <;> simp
  · rw [parse_tasks_api, h1, h2, h3, h4]
    rfl

/-- C7 witness: "use openai and anthropic" mentions two providers and
resolves to openai, the provider tested first. -/
theorem parse_tasks_provider_priority_witness :
    strContains (pyLower "use openai and anthropic") "openai" = true
    ∧ strContains (pyLower "use openai and anthropic") "anthropic" = true
    ∧ (parse_tasks "use openai and anthropic").api = "openai" :=
  ⟨by decide, by decide,
    (parse_tasks_provider_priority "use openai and anthropic").1 (by decide)⟩

/-- C10: mode detection is raw case-insensitive substring matching:
`web_ui` is true exactly when "web", "ui" or "interface" occurs in the
lower-cased text and `cli` exactly when "cli", "command" or "terminal"
occurs; consequently keyword fragments inside longer words trigger the
modes — any text containing "build" sets `web_ui` ("ui" occurs inside
"build") and any text containing "client" sets `cli`. -/
theorem parse_tasks_mode_detection (s : String) :
    ((parse_tasks s).web_ui
      = (strContains (pyLower s) "web" || strContains (pyLower s) "ui"
          || strContains (pyLower s) "interface"))
    ∧ ((parse_tasks s).cli
      = (strContains (pyLower s) "cli" || strContains (pyLower s) "command"
          || strContains (pyLower s) "terminal"))
    ∧ (strContains (pyLower s) "build" = true → (parse_tasks s).web_ui = true)
    ∧ (strContains (pyLower s) "client" = true → (parse_tasks s).cli = true) := by
  refine ⟨parse_tasks_web_ui s, parse_tasks_cli s, fun h => ?_, fun h => ?_⟩
  · have hui : strContains (pyLower s) "ui" = true :=
      strContains_trans h (by decide)
    rw [parse_tasks_web_ui, hui]
    simp
  · have hcli : strContains (pyLower s) "cli" = true :=
      strContains_trans h (by decide)
    rw [parse_tasks_cli, hcli]
    simp

/-- C10 witness: "build a client" mentions neither mode explicitly, yet both
`web_ui` and `cli` are set by the fragments inside "build" and "client". -/
theorem parse_tasks_mode_detection_witness :
    strContains (pyLower "build a client") "build" = true
    ∧ strContains (pyLower "build a client") "client" = true
    ∧ (parse_tasks "build a client").web_ui = true
    ∧ (parse_tasks "build a client").cli = true :=
  ⟨by decide, by decide,
    (parse_tasks_mode_detection "build a client").2.2.1 (by decide),
    (parse_tasks_mode_detection "build a client").2.2.2 (by decide)⟩

/-- C2 counterexample: a blank task text is not refused.  With the empty
task text and a valid credential, `generate_code` does not return the
refusal message; it invokes the Python composer and returns a generated
source (the output begins with the generated-assistant header comment). -/
theorem generate_code_empty_task_not_refused :
    generate_code "" "sk-123456" ≠ "Bitte geben Sie einen gültigen API-Key ein."
    ∧ strContains (generate_code "" "sk-123456") "# Generierter AI Assistant" = true
    ∧ generate_code "" "sk-123456" = generate_python_code (parse_tasks "") "sk-123456" := by
  refine ⟨by decide, by rfl, by rfl⟩

/-- C2 amended: the only refusal guard of `generate_code` checks the
credential, not the task text: for every task text, a blank or
whitespace-only credential is refused with the fixed error message and no
composer is invoked; a blank task text is not refused (generation proceeds
with the default parameters). -/
theorem generate_code_blank_key_refused (task_input api_key : String)
    (h : pyStrip api_key = "") :
    generate_code task_input api_key = "Bitte geben Sie einen gültigen API-Key ein." := by
  unfold generate_code
  rw [if_pos h]

/-- C2 witness: the three-space credential is blank after stripping, and
generation with it is refused. -/
theorem generate_code_blank_key_refused_witness :
    pyStrip "   " = ""
    ∧ generate_code "build a python assistant" "   "
        = "Bitte geben Sie einen gültigen API-Key ein." :=
  ⟨by decide, generate_code_blank_key_refused "build a python assistant" "   " (by decide)⟩

/-- C4 counterexample: the full credential can appear in the composed
output.  The credential "abc" is accepted (non-blank), and because the
declared preview is the first three characters followed by "...", the
fallback literal embeds the whole of any credential of at most three
characters — "abc" occurs in the output. -/
theorem generate_code_short_credential_leaks :
    pyStrip "abc" ≠ ""
    ∧ strContains (generate_code "python assistant" "abc") "abc" = true := by
  refine ⟨by decide, by rfl⟩

/-- C4 amended: the composed output depends on the credential only through
the declared three-character preview prefix: for every task text, any two
accepted credentials that agree on their first three characters produce
byte-identical output (the Python and PHP composers embed exactly
`credential[:3] ++ "..."` as the fallback literal, and the JavaScript
composer does not interpolate the credential at all).  The full credential
therefore appears only when it is no longer than the preview itself (or
coincides with fixed template text), contrary to the blanket non-leak
claim. -/
theorem generate_code_credential_preview (task_input : String) {k1 k2 : String}
    (h1 : pyStrip k1 ≠ "") (h2 : pyStrip k2 ≠ "")
    (h3 : pyTake 3 k1 = pyTake 3 k2) :
    generate_code task_input k1 = generate_code task_input k2 := by
  simp only [generate_code, if_neg h1, if_neg h2]
  split_ifs
  · exact generate_python_code_key _ h3
  · exact generate_php_code_key _ h3
  · rfl
  · rfl

/-- C4 witness: two distinct accepted credentials with the same preview
produce the same output. -/
theorem generate_code_credential_preview_witness :
    pyStrip "abcdE" ≠ "" ∧ pyStrip "abcXY" ≠ ""
    ∧ pyTake 3 "abcdE" = pyTake 3 "abcXY"
    ∧ generate_code "python" "abcdE" = generate_code "python" "abcXY" :=
  ⟨by decide, by decide, by decide,
    generate_code_credential_preview "python" (by decide) (by decide) (by decide)⟩

/-- C5 counterexample: the import section of a composed output can repeat a
line.  With the memory feature selected, the base import list already holds
"import json" and the memory fragment block repeats it, so the line
"import json" occurs twice in the emitted import section (deduplication
operates on whole entries, and the memory block is a single two-line
entry). -/
theorem python_import_section_repeated_line :
    ¬ ((pySplitOn (python_import_section (parse_tasks "python assistant with memory")) "\n").Nodup)
    ∧ countOcc (python_import_section (parse_tasks "python assistant with memory"))
        "import json" = 2 := by
  refine ⟨by decide, by rfl⟩

/-- C5 amended: the emitted import list is deduplicated at the granularity
of whole entries (an entry may be a multi-line feature import block),
preserving first-occurrence order: the deduplicated entry list has no
repeated entry, is a subsequence of the accumulated import list, and keeps
exactly its entries.  A feature block that repeats a base import line still
yields a repeated line inside the joined import section. -/
theorem python_imports_dedup_entries (params : GenerationParams) :
    (dedupFirst (python_imports params)).Nodup
    ∧ (dedupFirst (python_imports params)).Sublist (python_imports params)
    ∧ ∀ x, x ∈ dedupFirst (python_imports params) ↔ x ∈ python_imports params :=
  ⟨dedupFirst_nodup _, dedupFirst_sublist _, fun x => mem_dedupFirst _ x⟩

set_option maxRecDepth 4000 in
/-- C8 counterexample: the runtime dispatch is not web-by-default in every
target language.  In the JavaScript entry point the unflagged branch runs
the smoke test, web mode needs the explicit "--web" flag (both visible
verbatim in the transcribed main-code text), and the PHP composer emits no
runtime dispatch at all. -/
theorem js_entry_default_not_web :
    js_entry_dispatch.defaultAction ≠ MainAction.webInterface
    ∧ php_entry_dispatch.flagClauses = []
    ∧ strContains js_main_code_text "process.argv.includes(\"--web\")" = true
    ∧ strContains js_main_code_text
        "\x7d else \x7b\n  // Standard-Modus (einfacher Test)\n  runTest();\n\x7d" = true := by
  refine ⟨by decide, rfl, by rfl, by rfl⟩

/-- C8 amended: with webUI and cli both requested, the Python entry point
does dispatch on the runtime flag "--cli" with the web interface as the
unflagged default branch (the emitted main code ends with exactly the
four dispatch lines); the JavaScript entry point instead defaults to the
smoke test and requires "--web" for web mode; and the PHP composer emits
the web block unconditionally, with no runtime dispatch. -/
theorem entry_dispatch_both_requested (lang api model : String) (features : List String) :
    python_main_code (⟨lang, api, model, features, true, true⟩ : GenerationParams)
      = ["# Hauptfunktion"] ++ python_web_main_lines ++ python_cli_main_lines
        ++ [python_entry_guard_line] ++ python_entry_both_lines
    ∧ python_entry_both_lines
      = ["    if len(sys.argv) > 1 and sys.argv[1] == \x27--cli\x27:",
         "        run_cli()",
         "    else:",
         "        create_web_interface()"]
    ∧ python_entry_dispatch.defaultAction = MainAction.webInterface
    ∧ js_entry_dispatch.defaultAction = MainAction.smokeTest
    ∧ php_main_code (⟨lang, api, model, features, true, true⟩ : GenerationParams)
        = php_web_main := by
  refine ⟨?_, rfl, rfl, rfl, ?_⟩
  · simp [python_main_code, List.append_assoc]
  · simp [php_main_code]

/-- C9 counterexample: without the memory feature the composed output is
not the spec-side join with exactly one blank line between adjacent
sections: at the boundary between the setup section and the assistant body
the actual output keeps an empty placeholder section (three blank lines),
so the two strings already differ at index 225. -/
theorem generate_python_code_not_spec_join :
    generate_python_code (parse_tasks "python cli") "sk-123456"
      ≠ String.intercalate "\n\n"
          (python_sections_spec (parse_tasks "python cli") "sk-123456") := by
  intro h
  have hL : (generate_python_code (parse_tasks "python cli") "sk-123456").data.get? 225
      = some '\n' := by rfl
  have hR : (String.intercalate "\n\n"
      (python_sections_spec (parse_tasks "python cli") "sk-123456")).data.get? 225
      = some 'c' := by rfl
  rw [h, hR] at hL
  exact absurd hL (by decide)

/-- C9 amended: the composed Python output is the blank-line join of
header, imports, setup, a memory-class slot, assistant body and entry
point, in that fixed order — but the memory slot is kept as an empty
section when the memory feature is absent (giving three blank lines
between setup and assistant body there); when the memory feature is
present the output coincides with the spec-side join, with exactly one
blank line between adjacent sections. -/
theorem generate_python_code_section_order (params : GenerationParams) (api_key : String) :
    generate_python_code params api_key
      = String.intercalate "\n\n"
          [python_header params,
           python_import_section params,
           String.intercalate "\n" (python_setup_code api_key),
           (if python_memory_class params ≠ [] then
              String.intercalate "\n" (python_memory_class params)
            else ""),
           String.intercalate "\n" (python_assistant_class params),
           String.intercalate "\n" (python_main_code params)]
    ∧ (python_memory_class params ≠ [] →
        generate_python_code params api_key
          = String.intercalate "\n\n" (python_sections_spec params api_key)) := by
  refine ⟨python_sections_join params api_key, fun hmem => ?_⟩
  rw [python_sections_join params api_key]
  unfold python_sections_spec
  rw [if_pos hmem, if_pos hmem]
  rfl

set_option maxRecDepth 6000 in
/-- C9 witness: with the memory feature present the composed output equals
the spec-side join. -/
theorem generate_python_code_section_order_witness :
    python_memory_class (parse_tasks "python assistant with memory") ≠ []
    ∧ generate_python_code (parse_tasks "python assistant with memory") "sk-123456"
        = String.intercalate "\n\n"
            (python_sections_spec (parse_tasks "python assistant with memory") "sk-123456") :=
  ⟨by decide,
    (generate_python_code_section_order (parse_tasks "python assistant with memory")
      "sk-123456").2 (by decide)⟩

set_option maxRecDepth 4000 in
/-- C1 counterexample: on the Scenario A input the parser does not resolve
webUI to false — "ui" occurs as a raw substring inside "build", so
`web_ui` is true. -/
theorem scenarioA_webUI_true :
    (parse_tasks "build a python assistant using openai with memory, cli mode").web_ui
      = true := by rfl

set_option maxRecDepth 6000 in
/-- C1 amended: Scenario A resolves language=python, api=openai, model =
the provider default "gpt-3.5-turbo", features={memory}, cli=true — and
webUI=true (the fragment "ui" inside "build" triggers it).  The composed
output contains exactly one auxiliary persistence type
(`class ConversationMemory`), exactly one read-loop entry point
(`def run_cli():` with its `while True:` loop), and — contrary to the
claim — exactly one web bootstrap (`def create_web_interface():` with
`demo.launch()`), reachable through the runtime dispatch that defaults to
the web interface. -/
theorem scenarioA_resolution :
    parse_tasks "build a python assistant using openai with memory, cli mode"
      = { language := "python", api := "openai", model := "gpt-3.5-turbo",
          features := ["memory"], web_ui := true, cli := true }
    ∧ countOcc (generate_code "build a python assistant using openai with memory, cli mode"
        "sk-123456") "class ConversationMemory" = 1
    ∧ countOcc (generate_code "build a python assistant using openai with memory, cli mode"
        "sk-123456") "def run_cli():" = 1
    ∧ countOcc (generate_code "build a python assistant using openai with memory, cli mode"
        "sk-123456") "while True:" = 1
    ∧ countOcc (generate_code "build a python assistant using openai with memory, cli mode"
        "sk-123456") "def create_web_interface():" = 1
    ∧ countOcc (generate_code "build a python assistant using openai with memory, cli mode"
        "sk-123456") "demo.launch()" = 1
    ∧ countOcc (generate_code "build a python assistant using openai with memory, cli mode"
        "sk-123456") "    if len(sys.argv) > 1 and sys.argv[1] == \x27--cli\x27:" = 1 := by
  have hroute : generate_code "build a python assistant using openai with memory, cli mode"
        "sk-123456"
      = generate_python_code
          (parse_tasks "build a python assistant using openai with memory, cli mode")
          "sk-123456" := by rfl
  refine ⟨by rfl, ?_, ?_, ?_, ?_, ?_, ?_⟩ <;>
  · rw [hroute, python_sections_join,
      countOcc_join6 _ _ _ _ _ _ _ (by decide) (by decide)]
    rfl

end AssiGen
